import Mathlib

/-
Shallow embedding of the wgpuing render-loop core (src/src/lib.rs).

The program is a minimal windowed GPU render loop: a `State` struct holding
the surface configuration, the last known window size, and the clear color,
together with the methods `resize`, `input`, `update`, `render`, and the
top-level event-dispatch closure passed to the winit event loop in `run`.

Modelling decisions:
- `f64` values are modelled by `FVal`: either a finite rational or one of the
  IEEE non-finite values (+inf, -inf, NaN).  Division of two finite values
  mirrors IEEE-754 semantics for a zero divisor (`fdiv`).
- The GPU and windowing libraries are opaque collaborators.  Their calls
  (surface reconfiguration, command submission, presentation, requesting a
  redraw, `control_flow.exit()`, `eprintln!` logging) are recorded as an
  `Effect` trace returned next to the updated state.
- `surface.get_current_texture()` is external and fallible; `render` takes
  its result (`Option SurfaceError`, `none` meaning a texture was acquired)
  as an explicit oracle argument.
- The winit event loop is modelled by `runLoop`, which feeds a list of
  events (each paired with the acquisition oracle for that iteration) to the
  dispatch closure and stops once `control_flow.exit()` has been signalled.
-/

namespace Wgpuing

/-- Model of an `f64` value: a finite rational or an IEEE non-finite value. -/
inductive FVal where
  | finite (q : ℚ)
  | posInf
  | negInf
  | nan
deriving DecidableEq, Repr

/-- IEEE-754 division of two finite `f64` values: a zero divisor yields
+inf, -inf or NaN depending on the sign of the dividend; otherwise the exact
quotient (the claims only constrain exactly-representable cases). -/
def fdiv (x y : ℚ) : FVal :=
  if y = 0 then
    if 0 < x then FVal.posInf
    else if x < 0 then FVal.negInf
    else FVal.nan
  else FVal.finite (x / y)

/-- `wgpu::Color`: four `f64` channels. -/
structure Color where
  r : FVal
  g : FVal
  b : FVal
  a : FVal
deriving DecidableEq, Repr

/-- `wgpu::Color::BLACK` = { r: 0, g: 0, b: 0, a: 1 }. -/
def Color.BLACK : Color :=
  { r := FVal.finite 0, g := FVal.finite 0, b := FVal.finite 0, a := FVal.finite 1 }

/-- `winit::dpi::PhysicalSize<u32>`. -/
structure PhysicalSize where
  width : Nat
  height : Nat
deriving DecidableEq, Repr

/-- `wgpu::SurfaceConfiguration`: the fields the core reads or writes.
`format`, `presentMode` and `alphaMode` are opaque tags negotiated at
startup; the render loop never changes them. -/
structure SurfaceConfiguration where
  width : Nat
  height : Nat
  format : Nat
  presentMode : Nat
  alphaMode : Nat
deriving DecidableEq, Repr

/-- `winit::event::ElementState`. -/
inductive ElementState where
  | pressed
  | released
deriving DecidableEq, Repr

/-- The physical key of a `KeyEvent`, collapsed to what the dispatch
distinguishes: `Escape` versus anything else. -/
inductive KeyCode where
  | escape
  | otherKey
deriving DecidableEq, Repr

/-- `winit::event::WindowEvent`, restricted to the variants the program
matches on; every other variant is `otherWindowEvent`. -/
inductive WindowEvent where
  | cursorMoved (x y : ℚ)
  | closeRequested
  | keyboardInput (st : ElementState) (key : KeyCode)
  | resized (size : PhysicalSize)
  | redrawRequested
  | otherWindowEvent
deriving DecidableEq, Repr

/-- `winit::event::Event`, restricted to the arms of the dispatch closure. -/
inductive Event where
  | windowEvent (window_id : Nat) (event : WindowEvent)
  | aboutToWait
  | otherEvent
deriving DecidableEq, Repr

/-- `wgpu::SurfaceError`: the typed acquisition failures of
`get_current_texture()`. -/
inductive SurfaceError where
  | timeout
  | outdated
  | lost
  | outOfMemory
deriving DecidableEq, Repr

/-- Observable calls into the external windowing and GPU collaborators. -/
inductive Effect where
  | configureSurface (width height : Nat)
  | submit
  | present
  | exit
  | logError
  | requestRedraw
deriving DecidableEq, Repr

/-- The `State` struct: the fields whose values the render loop reads or
writes.  The GPU handles (surface, device, queue, pipeline, vertex buffer)
are opaque resources whose use is captured in the `Effect` trace; `window`
is kept only as its id, which the dispatch compares events against. -/
structure State where
  surface_config : SurfaceConfiguration
  window_size : PhysicalSize
  window_id : Nat
  clear_color : Color
deriving DecidableEq, Repr

/-- `State::new`: the surface configuration takes its width and height from
the window's current inner size; format and alpha mode come from the
negotiated surface capabilities (opaque here); the clear color starts as
`wgpu::Color::BLACK`. -/
def State.new (window_id : Nat) (window_size : PhysicalSize)
    (format presentMode alphaMode : Nat) : State :=
  { surface_config :=
      { width := window_size.width
        height := window_size.height
        format := format
        presentMode := presentMode
        alphaMode := alphaMode }
    window_size := window_size
    window_id := window_id
    clear_color := Color.BLACK }

/-- `State::resize`: when both dimensions are positive, store the new size,
mirror it into the surface configuration and reconfigure the surface;
otherwise do nothing. -/
def State.resize (s : State) (new_size : PhysicalSize) : State × List Effect :=
  if 0 < new_size.width ∧ 0 < new_size.height then
    let cfg :=
      { s.surface_config with width := new_size.width, height := new_size.height }
    ({ s with window_size := new_size, surface_config := cfg },
      [Effect.configureSurface new_size.width new_size.height])
  else (s, [])

/-- `State::input`: a cursor-move recomputes the clear color from the
position normalized by the current window size (`b` and `a` are set to the
fixed value 1) and reports the event handled; every other event is reported
unhandled and changes nothing. -/
def State.input (s : State) (event : WindowEvent) : State × Bool :=
  match event with
  | WindowEvent.cursorMoved x y =>
      ({ s with clear_color :=
          { r := fdiv x (s.window_size.width : ℚ)
            g := fdiv y (s.window_size.height : ℚ)
            b := FVal.finite 1
            a := FVal.finite 1 } }, true)
  | _ => (s, false)

/-- `State::update`: a no-op. -/
def State.update (s : State) : State := s

/-- `State::render`: acquire the next surface texture (outcome supplied by
the `acquire` oracle); on failure propagate the error with the `?`
operator; on success record one render pass clearing to the current clear
color, submit, and present. -/
def State.render (s : State) (acquire : Option SurfaceError) :
    State × List Effect × Option SurfaceError :=
  match acquire with
  | some e => (s, [], some e)
  | none => (s, [Effect.submit, Effect.present], none)

/-- The event-dispatch closure passed to `event_loop.run` in `run`: window
events for this window first go through `input`; unhandled ones are matched
for close/Escape (exit), resize, and redraw (update, render, then act on
the render outcome). -/
def dispatch (s : State) (ev : Event) (acquire : Option SurfaceError) :
    State × List Effect :=
  match ev with
  | Event.windowEvent wid wev =>
      if wid = s.window_id then
        let handled := s.input wev
        if handled.2 then (handled.1, [])
        else
          let s1 := handled.1
          match wev with
          | WindowEvent.closeRequested => (s1, [Effect.exit])
          | WindowEvent.keyboardInput ElementState.pressed KeyCode.escape =>
              (s1, [Effect.exit])
          | WindowEvent.resized size => s1.resize size
          | WindowEvent.redrawRequested =>
              let s2 := s1.update
              let r := s2.render acquire
              match r.2.2 with
              | none => (r.1, r.2.1)
              | some SurfaceError.lost =>
                  let r2 := r.1.resize r.1.window_size
                  (r2.1, r.2.1 ++ r2.2)
              | some SurfaceError.outOfMemory => (r.1, r.2.1 ++ [Effect.exit])
              | some _ => (r.1, r.2.1 ++ [Effect.logError])
          | _ => (s1, [])
      else (s, [])
  | Event.aboutToWait => (s, [Effect.requestRedraw])
  | Event.otherEvent => (s, [])

/-- The winit event loop around the dispatch closure: events are delivered
one at a time with the acquisition oracle for that iteration; once
`control_flow.exit()` has been signalled no further events are processed. -/
def runLoop (s : State) : List (Event × Option SurfaceError) → State × List Effect
  | [] => (s, [])
  | (ev, acq) :: rest =>
      let step := dispatch s ev acq
      if Effect.exit ∈ step.2 then step
      else
        let next := runLoop step.1 rest
        (next.1, step.2 ++ next.2)

/-- The invariant that `window_size` mirrors the surface configuration's
width and height. -/
def sizeInvariant (s : State) : Prop :=
  s.window_size.width = s.surface_config.width ∧
  s.window_size.height = s.surface_config.height

/-- C1: a pointer-move handled by `input` at position (x,y) while the
window size is (W,H) with W,H > 0 sets the clear color to
(x/W, y/H, 1, 1): the first channel is x/W, the second y/H, and the third
and fourth keep their fixed values 1. -/
theorem input_pointer_move_normalizes (s : State) (x y : ℚ)
    (hW : 0 < s.window_size.width) (hH : 0 < s.window_size.height) :
    s.input (WindowEvent.cursorMoved x y) =
      ({ s with clear_color :=
          { r := FVal.finite (x / (s.window_size.width : ℚ))
            g := FVal.finite (y / (s.window_size.height : ℚ))
            b := FVal.finite 1
            a := FVal.finite 1 } }, true) := by
  have hW0 : ((s.window_size.width : ℚ)) ≠ 0 := by
    have hpos : (0 : ℚ) < (s.window_size.width : ℚ) := by exact_mod_cast hW
    exact hpos.ne'
  have hH0 : ((s.window_size.height : ℚ)) ≠ 0 := by
    have hpos : (0 : ℚ) < (s.window_size.height : ℚ) := by exact_mod_cast hH
    exact hpos.ne'
  simp [State.input, fdiv, hW0, hH0]

/-- C1 witness: with window size (800,600), a pointer move to (400,300)
yields clear color (0.5, 0.5, 1, 1). -/
theorem input_pointer_move_normalizes_witness :
    ((State.new 0 ⟨800, 600⟩ 0 0 0).input (WindowEvent.cursorMoved 400 300)).1.clear_color =
      { r := FVal.finite (1 / 2), g := FVal.finite (1 / 2)
        b := FVal.finite 1, a := FVal.finite 1 } := by
  have h := input_pointer_move_normalizes (State.new 0 ⟨800, 600⟩ 0 0 0) 400 300
    (by decide) (by decide)
  rw [h]
  norm_num [State.new]

/-- C2: `resize` with both dimensions positive stores the new window size,
mirrors it into the surface configuration, and issues exactly one surface
reconfiguration call. -/
theorem resize_positive_updates (s : State) (w h : Nat)
    (hw : 0 < w) (hh : 0 < h) :
    (s.resize ⟨w, h⟩).1.window_size = ⟨w, h⟩ ∧
    (s.resize ⟨w, h⟩).1.surface_config.width = w ∧
    (s.resize ⟨w, h⟩).1.surface_config.height = h ∧
    (s.resize ⟨w, h⟩).2 = [Effect.configureSurface w h] := by
  simp [State.resize, hw, hh]

/-- C2 witness: resizing from (800,600) to (1024,768). -/
theorem resize_positive_updates_witness :
    ((State.new 0 ⟨800, 600⟩ 0 0 0).resize ⟨1024, 768⟩).1.window_size = ⟨1024, 768⟩ ∧
    ((State.new 0 ⟨800, 600⟩ 0 0 0).resize ⟨1024, 768⟩).1.surface_config.width = 1024 ∧
    ((State.new 0 ⟨800, 600⟩ 0 0 0).resize ⟨1024, 768⟩).1.surface_config.height = 768 ∧
    ((State.new 0 ⟨800, 600⟩ 0 0 0).resize ⟨1024, 768⟩).2 =
      [Effect.configureSurface 1024 768] :=
  resize_positive_updates (State.new 0 ⟨800, 600⟩ 0 0 0) 1024 768
    (by decide) (by decide)

/-- C3: `resize` with a zero dimension leaves the state (window size and
surface configuration included) unchanged and issues no surface
reconfiguration call. -/
theorem resize_zero_noop (s : State) (w h : Nat) (hz : w = 0 ∨ h = 0) :
    s.resize ⟨w, h⟩ = (s, []) := by
  have hno : ¬(0 < w ∧ 0 < h) := by
    rcases hz with h0 | h0 <;> simp [h0]
  simp [State.resize, hno]

/-- C3 witness: `resize(0,600)` after a valid (800,600) configuration is a
no-op. -/
theorem resize_zero_noop_witness :
    (State.new 0 ⟨800, 600⟩ 0 0 0).resize ⟨0, 600⟩ =
      (State.new 0 ⟨800, 600⟩ 0 0 0, []) :=
  resize_zero_noop (State.new 0 ⟨800, 600⟩ 0 0 0) 0 600 (Or.inl rfl)

/-- C7: `input` on any event that is not a pointer-move returns "not
handled" (false) and leaves the state, the clear color included,
unchanged. -/
theorem input_non_pointer_move (s : State) (ev : WindowEvent)
    (h : ∀ x y : ℚ, ev ≠ WindowEvent.cursorMoved x y) :
    s.input ev = (s, false) := by
  cases ev with
  | cursorMoved x y => exact absurd rfl (h x y)
  | closeRequested => rfl
  | keyboardInput st key => rfl
  | resized size => rfl
  | redrawRequested => rfl
  | otherWindowEvent => rfl

/-- C7 witness: a close-requested event is not handled by `input` and
changes nothing. -/
theorem input_non_pointer_move_witness :
    (State.new 0 ⟨800, 600⟩ 0 0 0).input WindowEvent.closeRequested =
      (State.new 0 ⟨800, 600⟩ 0 0 0, false) :=
  input_non_pointer_move (State.new 0 ⟨800, 600⟩ 0 0 0)
    WindowEvent.closeRequested (by simp)

/-- C8: a close-requested event and an Escape-key-pressed event targeting
this window each signal process termination, whatever the current state
(window size, surface configuration, clear color) and whatever the
acquisition oracle would return. -/
theorem dispatch_close_or_escape_exits (s : State) (acq : Option SurfaceError) :
    dispatch s (Event.windowEvent s.window_id WindowEvent.closeRequested) acq =
      (s, [Effect.exit]) ∧
    dispatch s (Event.windowEvent s.window_id
        (WindowEvent.keyboardInput ElementState.pressed KeyCode.escape)) acq =
      (s, [Effect.exit]) := by
  constructor <;> simp [dispatch, State.input]

/-- C5: when `render` returns `OutOfMemory` on a redraw, the event loop
signals termination exactly once and processes none of the remaining
events: the loop's result does not depend on `rest`. -/
theorem redraw_out_of_memory_exits_once (s : State)
    (rest : List (Event × Option SurfaceError)) :
    runLoop s ((Event.windowEvent s.window_id WindowEvent.redrawRequested,
        some SurfaceError.outOfMemory) :: rest) = (s, [Effect.exit]) ∧
    (runLoop s ((Event.windowEvent s.window_id WindowEvent.redrawRequested,
        some SurfaceError.outOfMemory) :: rest)).2.count Effect.exit = 1 := by
  have hd : dispatch s (Event.windowEvent s.window_id WindowEvent.redrawRequested)
      (some SurfaceError.outOfMemory) = (s, [Effect.exit]) := by
    simp [dispatch, State.input, State.update, State.render]
  constructor <;> simp [runLoop, hd]

/-- C4: when `render` returns `Lost` on a redraw, the dispatch's next
action is `resize` with the current window size: the window size is left
unchanged by the failed render, and (both dimensions being positive) the
surface is reconfigured once with those same dimensions rather than
skipped. -/
theorem redraw_lost_reconfigures_same_size (s : State)
    (hw : 0 < s.window_size.width) (hh : 0 < s.window_size.height) :
    (dispatch s (Event.windowEvent s.window_id WindowEvent.redrawRequested)
        (some SurfaceError.lost)).1.window_size = s.window_size ∧
    (dispatch s (Event.windowEvent s.window_id WindowEvent.redrawRequested)
        (some SurfaceError.lost)).1.surface_config.width = s.window_size.width ∧
    (dispatch s (Event.windowEvent s.window_id WindowEvent.redrawRequested)
        (some SurfaceError.lost)).1.surface_config.height = s.window_size.height ∧
    (dispatch s (Event.windowEvent s.window_id WindowEvent.redrawRequested)
        (some SurfaceError.lost)).2 =
      [Effect.configureSurface s.window_size.width s.window_size.height] := by
  simp [dispatch, State.input, State.update, State.render, State.resize, hw, hh]

/-- C4 witness: with window size (800,600), a `Lost` outcome leads to one
reconfiguration at (800,600). -/
theorem redraw_lost_reconfigures_same_size_witness :
    (dispatch (State.new 0 ⟨800, 600⟩ 0 0 0)
        (Event.windowEvent 0 WindowEvent.redrawRequested)
        (some SurfaceError.lost)).1.window_size = (⟨800, 600⟩ : PhysicalSize) ∧
    (dispatch (State.new 0 ⟨800, 600⟩ 0 0 0)
        (Event.windowEvent 0 WindowEvent.redrawRequested)
        (some SurfaceError.lost)).1.surface_config.width = 800 ∧
    (dispatch (State.new 0 ⟨800, 600⟩ 0 0 0)
        (Event.windowEvent 0 WindowEvent.redrawRequested)
        (some SurfaceError.lost)).1.surface_config.height = 600 ∧
    (dispatch (State.new 0 ⟨800, 600⟩ 0 0 0)
        (Event.windowEvent 0 WindowEvent.redrawRequested)
        (some SurfaceError.lost)).2 = [Effect.configureSurface 800 600] :=
  redraw_lost_reconfigures_same_size (State.new 0 ⟨800, 600⟩ 0 0 0)
    (by decide) (by decide)

/-- C6: when `render` returns an acquisition failure other than `Lost` or
`OutOfMemory` on a redraw, the dispatch only logs the error — the state
(window size, surface configuration and clear color) is returned unchanged,
no exit is signalled — and the loop goes on to process the remaining
events. -/
theorem redraw_other_error_logs_and_continues (s : State) (e : SurfaceError)
    (hl : e ≠ SurfaceError.lost) (hm : e ≠ SurfaceError.outOfMemory) :
    dispatch s (Event.windowEvent s.window_id WindowEvent.redrawRequested) (some e) =
      (s, [Effect.logError]) ∧
    ∀ rest : List (Event × Option SurfaceError),
      runLoop s ((Event.windowEvent s.window_id WindowEvent.redrawRequested,
          some e) :: rest) =
        ((runLoop s rest).1, Effect.logError :: (runLoop s rest).2) := by
  have hd : dispatch s (Event.windowEvent s.window_id WindowEvent.redrawRequested)
      (some e) = (s, [Effect.logError]) := by
    cases e with
    | timeout => simp [dispatch, State.input, State.update, State.render]
    | outdated => simp [dispatch, State.input, State.update, State.render]
    | lost => exact absurd rfl hl
    | outOfMemory => exact absurd rfl hm
  refine ⟨hd, fun rest => ?_⟩
  simp [runLoop, hd]

/-- C6 witness: a `Timeout` acquisition failure is logged and the loop
continues (here with an empty remainder). -/
theorem redraw_other_error_logs_and_continues_witness :
    dispatch (State.new 0 ⟨800, 600⟩ 0 0 0)
        (Event.windowEvent 0 WindowEvent.redrawRequested)
        (some SurfaceError.timeout) =
      (State.new 0 ⟨800, 600⟩ 0 0 0, [Effect.logError]) ∧
    runLoop (State.new 0 ⟨800, 600⟩ 0 0 0)
        [(Event.windowEvent 0 WindowEvent.redrawRequested, some SurfaceError.timeout)] =
      (State.new 0 ⟨800, 600⟩ 0 0 0, [Effect.logError]) := by
  have h := redraw_other_error_logs_and_continues (State.new 0 ⟨800, 600⟩ 0 0 0)
    SurfaceError.timeout (by decide) (by decide)
  exact ⟨h.1, (h.2 []).trans rfl⟩

/-- C9: `input` on a pointer move is total — for every position (x,y),
including positions outside the window, and even with a zero window width,
it returns a well-defined handled result; with width 0 the first channel is
+inf, -inf or NaN according to the sign of x, mirroring `f64` division by
zero rather than failing. -/
theorem input_pointer_move_zero_width_total (s : State) (x y : ℚ)
    (h0 : s.window_size.width = 0) :
    ∃ c : Color,
      s.input (WindowEvent.cursorMoved x y) = ({ s with clear_color := c }, true) ∧
      c.r = (if 0 < x then FVal.posInf else if x < 0 then FVal.negInf
             else FVal.nan) := by
  refine ⟨_, rfl, ?_⟩
  simp [fdiv, h0]

/-- C9 witness: with window width 0 and a cursor position outside the
window, `input` still answers "handled" and the first channel is +inf. -/
theorem input_pointer_move_zero_width_total_witness :
    ∃ c : Color,
      (State.new 3 ⟨0, 600⟩ 0 0 0).input (WindowEvent.cursorMoved 5 (-2)) =
        ({ State.new 3 ⟨0, 600⟩ 0 0 0 with clear_color := c }, true) ∧
      c.r = FVal.posInf := by
  obtain ⟨c, h1, h2⟩ :=
    input_pointer_move_zero_width_total (State.new 3 ⟨0, 600⟩ 0 0 0) 5 (-2) rfl
  refine ⟨c, h1, ?_⟩
  rw [h2]
  norm_num

/-- C10: the invariant that `window_size` equals the surface
configuration's (width, height) holds after construction and is preserved
by every operation: `resize` updates both together or neither, and `input`,
`update` and `render` touch neither. -/
theorem size_invariant_holds (s : State) (hs : sizeInvariant s)
    (wid : Nat) (ws ns : PhysicalSize) (f pm am : Nat)
    (ev : WindowEvent) (acq : Option SurfaceError) :
    sizeInvariant (State.new wid ws f pm am) ∧
    sizeInvariant (s.resize ns).1 ∧
    sizeInvariant (s.input ev).1 ∧
    sizeInvariant s.update ∧
    sizeInvariant (s.render acq).1 := by
  refine ⟨⟨rfl, rfl⟩, ?_, ?_, hs, ?_⟩
  · unfold State.resize
    by_cases hp : 0 < ns.width ∧ 0 < ns.height
    · simp [hp, sizeInvariant]
    · simpa [hp] using hs
  · cases ev with
    | cursorMoved x y => exact hs
    | closeRequested => exact hs
    | keyboardInput st key => exact hs
    | resized size => exact hs
    | redrawRequested => exact hs
    | otherWindowEvent => exact hs
  · cases acq with
    | none => exact hs
    | some e => exact hs

/-- C10 witness: the invariant at a freshly constructed state and after a
resize, an input, an update and a render on a concrete state. -/
theorem size_invariant_holds_witness :
    sizeInvariant (State.new 1 ⟨640, 480⟩ 2 3 4) ∧
    sizeInvariant ((State.new 0 ⟨800, 600⟩ 0 0 0).resize ⟨1024, 768⟩).1 ∧
    sizeInvariant ((State.new 0 ⟨800, 600⟩ 0 0 0).input
        (WindowEvent.cursorMoved 10 20)).1 ∧
    sizeInvariant (State.new 0 ⟨800, 600⟩ 0 0 0).update ∧
    sizeInvariant ((State.new 0 ⟨800, 600⟩ 0 0 0).render
        (some SurfaceError.lost)).1 :=
  size_invariant_holds (State.new 0 ⟨800, 600⟩ 0 0 0) ⟨rfl, rfl⟩
    1 ⟨640, 480⟩ ⟨1024, 768⟩ 2 3 4
    (WindowEvent.cursorMoved 10 20) (some SurfaceError.lost)

end Wgpuing
